import Mathlib

/-!
Shallow embedding of the resilient dependency-invocation layer of the
cloud-native-application-architecture tutorial services.

The embedded code:
* `fetchWithRetry` from services/day-3/log-service-with-retries/server.js
  (the identical function also appears in the traced variant, unnamed
  part_003, and — with a per-attempt AbortController — in
  services/day-4/log-service-hardened/server.js);
* the `app.all` request handlers of the retry variant, of the combined
  timeout+retry variant (part_003) and of the timeout-only variant
  (services/day-3/log-service-with-timeout/server.js);
* the correlation-id middleware of part_003;
* the timer placement of the two AbortController variants.

Modelling conventions:
* The dependency is an oracle `dep : Nat → DepOutcome` giving, for each
  1-based attempt ordinal, either an HTTP response with a status code or a
  rejected fetch promise (abort or transport error).
* `Math.floor(Math.random() * 50)` is an oracle `jitter : Nat → Fin 50`
  (the source expression always yields an integer in `[0, 50)`).
* Real time does not advance inside the model; awaited sleeps are recorded
  in a trace field so their number and durations can be reasoned about.
-/

namespace CloudNative

/-- Result of one awaited `fetch(url, options)`: either the promise
resolves with a `Response` carrying an HTTP status code, or it rejects
(`isAbort = true` for an `AbortError`, `false` for a transport-level
`TypeError` such as connection refused). -/
inductive DepOutcome where
  | resp (status : Nat)
  | err (isAbort : Bool)
deriving DecidableEq, Repr

/-- Embeds `response.ok`: status in the inclusive range 200–299. -/
def statusOk (s : Nat) : Bool := 200 ≤ s && s < 300

/-- Embeds the guard `response.status >= 400 && response.status < 500`. -/
def statusClientError (s : Nat) : Bool := 400 ≤ s && s < 500

/-- A JavaScript error value as thrown inside `fetchWithRetry`:
`serverReturned s` is the `new Error("Server returned s")` thrown for a
response that is neither ok nor 4xx; `fetchFailure isAbort` is an error
propagated out of `fetch` itself. -/
inductive JsError where
  | serverReturned (status : Nat)
  | fetchFailure (isAbort : Bool)
deriving DecidableEq, Repr

/-- What a call to `fetchWithRetry` settles to: a returned `Response`
(its status recorded) or a thrown error. -/
inductive RetryOutcome where
  | response (status : Nat)
  | thrown (e : JsError)
deriving DecidableEq, Repr

/-- The constant `MAX_RETRIES = 3` from `fetchWithRetry`. -/
def MAX_RETRIES : Nat := 3

/-- The subset of the `options` object passed to `fetch` that the claims
observe: the `X-Request-ID` header (absent in the plain retry variant) and
whether an `AbortSignal` is attached. -/
structure FetchOptions where
  xRequestId : Option String
  hasSignal : Bool
deriving DecidableEq, Repr

/-- Observable trace of one `fetchWithRetry(url, options, retriesLeft)`
call: the settled outcome, the `(attempt ordinal, options)` pair of every
dispatched `fetch`, in order, and every awaited `sleep(delay)` duration,
in order. -/
structure RunTrace where
  outcome : RetryOutcome
  sent : List (Nat × FetchOptions)
  delays : List Nat
deriving DecidableEq, Repr

/-- The body of the `try` block of `fetchWithRetry` on one attempt:
an ok response and a 4xx response are returned; anything else becomes a
thrown error (`throw new Error(...)` for other statuses, or the rejection
of `fetch` itself re-raised by `await`). -/
def tryBody (out : DepOutcome) : Sum Nat JsError :=
  match out with
  | .resp s =>
    if statusOk s then .inl s
    else if statusClientError s then .inl s
    else .inr (.serverReturned s)
  | .err isAbort => .inr (.fetchFailure isAbort)

/-- Embeds `async function fetchWithRetry(url, options = {}, retriesLeft = 3)`
from services/day-3/log-service-with-retries/server.js lines 36–67:

* `attempt = MAX_RETRIES - retriesLeft + 1`;
* `backoff = 100 * Math.pow(2, attempt - 1)`;
* a returned response (ok or 4xx) ends the call;
* on a thrown error with `retriesLeft === 0` the error propagates;
* otherwise `delay = backoff + jitter` is slept and the function recurses
  with `retriesLeft - 1` and the same `url` and `options`. -/
def fetchWithRetry (dep : Nat → DepOutcome) (jitter : Nat → Fin 50)
    (options : FetchOptions) : Nat → RunTrace
  | 0 =>
    let attempt := MAX_RETRIES - 0 + 1
    match tryBody (dep attempt) with
    | .inl s =>
      { outcome := .response s, sent := [(attempt, options)], delays := [] }
    | .inr e =>
      { outcome := .thrown e, sent := [(attempt, options)], delays := [] }
  | r + 1 =>
    let attempt := MAX_RETRIES - (r + 1) + 1
    let backoff := 100 * 2 ^ (attempt - 1)
    match tryBody (dep attempt) with
    | .inl s =>
      { outcome := .response s, sent := [(attempt, options)], delays := [] }
    | .inr _ =>
      let rest := fetchWithRetry dep jitter options r
      { outcome := rest.outcome
        sent := (attempt, options) :: rest.sent
        delays := (backoff + (jitter attempt).val) :: rest.delays }

/-- The options value of the plain retry variant, whose handler calls
`fetchWithRetry(DEPENDENCY_URL)` with the default empty options. -/
def emptyOptions : FetchOptions := { xRequestId := none, hasSignal := false }

/-- The fields of the `received` echo object built by the handlers from the
inbound request (`method`, `path`; `query`, `body` and `headers` are echoed
the same way and are subsumed by this record for the claims at hand). -/
structure ReceivedEcho where
  method : String
  path : String
deriving DecidableEq, Repr

/-- The `enrichment` field (the `dependencyInfo` variable) of the JSON
response body:
* `fromDependency s` — `await response.json()` succeeded on an ok response
  with status `s` (the parsed body itself is opaque to the claims);
* `depStatus s` — the object `{ error: "Dependency returned s" }` built for
  a returned non-ok response;
* `errMessage e` — the object `{ error: error.message }` built in the
  catch-all branch;
* `timeoutDegraded` — the object
  `{ error: "upstream_dependency_timeout", degraded: true }` built when the
  caught error is an `AbortError`. -/
inductive Enrichment where
  | fromDependency (status : Nat)
  | depStatus (status : Nat)
  | errMessage (e : JsError)
  | timeoutDegraded
deriving DecidableEq, Repr

/-- The JSON body passed to `res.json(...)` by the `app.all` handlers:
`message`, the `received` echo and the `environment` object are always
present; only `enrichment` depends on the dependency. -/
structure HandlerResponse where
  message : String
  received : ReceivedEcho
  enrichment : Enrichment
  hostname : String
  version : String
deriving DecidableEq, Repr

/-- Embeds the `app.all` handler of
services/day-3/log-service-with-retries/server.js lines 69–102: it awaits
`fetchWithRetry(DEPENDENCY_URL)` (default options, default
`retriesLeft = 3`) inside `try`; a returned ok response is parsed, a
returned non-ok response becomes a `Dependency returned ...` enrichment,
and any thrown error is caught and becomes an `error.message` enrichment;
`res.json` is then always called with the fixed message, echo and
environment fields. -/
def handleRequestRetries (req : ReceivedEcho) (host ver : String)
    (dep : Nat → DepOutcome) (jitter : Nat → Fin 50) : HandlerResponse :=
  let run := fetchWithRetry dep jitter emptyOptions 3
  let dependencyInfo :=
    match run.outcome with
    | .response s =>
      if statusOk s then Enrichment.fromDependency s else Enrichment.depStatus s
    | .thrown e => Enrichment.errMessage e
  { message := "Hello from log-service", received := req,
    enrichment := dependencyInfo, hostname := host, version := ver }

/-- Embeds line 15 of unnamed part_003:
`const traceId = req.headers["x-request-id"] || crypto.randomUUID();`.
JavaScript `||` takes the right operand when the header is absent
(`undefined`) or the empty string (both falsy); `freshUUID` stands for the
value `crypto.randomUUID()` would produce. -/
def obtainTraceId (inbound : Option String) (freshUUID : String) : String :=
  match inbound with
  | some s => if s = "" then freshUUID else s
  | none => freshUUID

/-- Embeds the `app.all` handler of unnamed part_003 lines 78–129: an
AbortController timer is armed once around the whole
`fetchWithRetry(DEPENDENCY_URL, fetchOptions)` call, the `fetchOptions`
carry the middleware trace id as an `X-Request-ID` header plus the signal,
and the catch distinguishes `error.name === "AbortError"` (the timeout
enrichment) from every other error. Returns the response body together
with the run trace so the dispatched options are observable. -/
def handleRequestCombined (req : ReceivedEcho) (inboundRequestId : Option String)
    (freshUUID : String) (host ver : String)
    (dep : Nat → DepOutcome) (jitter : Nat → Fin 50) :
    HandlerResponse × RunTrace :=
  let traceId := obtainTraceId inboundRequestId freshUUID
  let fetchOptions : FetchOptions := { xRequestId := some traceId, hasSignal := true }
  let run := fetchWithRetry dep jitter fetchOptions 3
  let dependencyInfo :=
    match run.outcome with
    | .response s =>
      if statusOk s then Enrichment.fromDependency s else Enrichment.depStatus s
    | .thrown (.fetchFailure true) => Enrichment.timeoutDegraded
    | .thrown e => Enrichment.errMessage e
  ({ message := "Hello from log-service", received := req,
     enrichment := dependencyInfo, hostname := host, version := ver }, run)

/-- Timing behaviour of the dependency for the timeout-only variant:
it responds with a status after some latency, fails at the transport level
after some latency, or never answers at all. -/
inductive TimedDep where
  | responds (latency : Nat) (status : Nat)
  | failsAt (latency : Nat)
  | hangs
deriving DecidableEq, Repr

/-- Result of one `fetch(url, { signal })` guarded by
`setTimeout(() => controller.abort(), timeoutMs)`. -/
inductive FetchOutcome where
  | resp (status : Nat)
  | abortError
  | netError
deriving DecidableEq, Repr

/-- Embeds the guarded fetch of
services/day-3/log-service-with-timeout/server.js lines 38–42, together
with the runtime semantics of fetch with an AbortSignal: the timer fires
`timeoutMs` after the attempt starts, and once it has fired the in-flight
call is aborted, so an outcome whose latency is not strictly below
`timeoutMs` is surfaced as an `AbortError`, never as a response —
cancellation is authoritative and a late response is discarded. -/
def fetchWithSignal (timeoutMs : Nat) (dep : TimedDep) : FetchOutcome :=
  match dep with
  | .responds lat s => if lat < timeoutMs then .resp s else .abortError
  | .failsAt lat => if lat < timeoutMs then .netError else .abortError
  | .hangs => .abortError

/-- The 1000 ms timeout of the timeout-only variant (line 39). -/
def TIMEOUT_MS : Nat := 1000

/-- Embeds the `app.all` handler of
services/day-3/log-service-with-timeout/server.js lines 32–77: one guarded
fetch; an ok response is parsed, a non-ok response becomes a
`Dependency returned ...` enrichment, an `AbortError` becomes the
`upstream_dependency_timeout` enrichment and any other error its
`error.message`; the surrounding body is always sent. -/
def handleRequestTimeout (req : ReceivedEcho) (host ver : String)
    (dep : TimedDep) : HandlerResponse :=
  let dependencyInfo :=
    match fetchWithSignal TIMEOUT_MS dep with
    | .resp s =>
      if statusOk s then Enrichment.fromDependency s else Enrichment.depStatus s
    | .abortError => Enrichment.timeoutDegraded
    | .netError => Enrichment.errMessage (.fetchFailure false)
  { message := "Hello from log-service", received := req,
    enrichment := dependencyInfo, hostname := host, version := ver }

/-- Embeds the timer placement of unnamed part_003 lines 84–85: the single
`setTimeout(() => controller.abort(), 1000)` is armed before
`fetchWithRetry` starts, so the one shared signal fires 1000 ms after the
whole call starts, whatever attempt is then in flight. -/
def combinedSignalFireTime (callStart : Nat) : Nat := callStart + 1000

/-- Time still available to an attempt of the part_003 variant that starts
at `attemptStart`: the shared signal fires at `combinedSignalFireTime
callStart` regardless of the attempt. -/
def combinedAttemptWindow (callStart attemptStart : Nat) : Nat :=
  combinedSignalFireTime callStart - attemptStart

/-- Embeds the timer placement of
services/day-4/log-service-hardened/server.js lines 76–77: each attempt
creates its own AbortController and arms
`setTimeout(() => controller.abort(), 5000)` at its own start. -/
def hardenedSignalFireTime (attemptStart : Nat) : Nat := attemptStart + 5000

/-- Time available to an attempt of the hardened variant that starts at
`attemptStart`. -/
def hardenedAttemptWindow (attemptStart : Nat) : Nat :=
  hardenedSignalFireTime attemptStart - attemptStart

/-- Elapsed time at which the n-th attempt (1-based) of the part_003
variant starts, for dependency attempt durations `durations` and the
jitter oracle: attempt 1 starts when the call starts, and each later
attempt starts after the previous attempt's duration plus the backoff
sleep `100 * 2 ^ (n - 1) + jitter n` that `fetchWithRetry` awaits after
failed attempt `n`. -/
def combinedAttemptStart (durations : Nat → Nat) (jitter : Nat → Fin 50) :
    Nat → Nat
  | 0 => 0
  | 1 => 0
  | n + 1 =>
    combinedAttemptStart durations jitter n + durations n
      + (100 * 2 ^ (n - 1) + (jitter n).val)

/-- Runtime semantics of fetch with an already-aborted signal: once the
shared part_003 signal has fired (from attempt `firedFrom` on), every
fetch dispatched with that signal rejects immediately with an
`AbortError`; attempts before that see the unmodified dependency. -/
def depUnderFiredSignal (dep : Nat → DepOutcome) (firedFrom : Nat) :
    Nat → DepOutcome :=
  fun attempt => if firedFrom ≤ attempt then .err true else dep attempt

/-- Whether one attempt at this outcome ends in the catch block of
fetchWithRetry (true) or returns a response (false). -/
def throwsOutcome (o : DepOutcome) : Bool :=
  match tryBody o with
  | .inl _ => false
  | .inr _ => true

/-! Helper lemmas about fetchWithRetry runs. -/

theorem fetchWithRetry_sent_length_le (dep : Nat → DepOutcome)
    (jitter : Nat → Fin 50) (options : FetchOptions) (rl : Nat) :
    (fetchWithRetry dep jitter options rl).sent.length ≤ rl + 1 := by
  induction rl with
  | zero =>
    rcases h : tryBody (dep (MAX_RETRIES + 1)) with s | e <;>
      simp [fetchWithRetry, h]
  | succ r ih =>
    rcases h : tryBody (dep (MAX_RETRIES - (r + 1) + 1)) with s | e <;>
      simp [fetchWithRetry, h]
    omega

theorem fetchWithRetry_sent_options (dep : Nat → DepOutcome)
    (jitter : Nat → Fin 50) (options : FetchOptions) (rl : Nat) :
    ∀ p ∈ (fetchWithRetry dep jitter options rl).sent, p.2 = options := by
  induction rl with
  | zero =>
    rcases h : tryBody (dep (MAX_RETRIES + 1)) with s | e <;>
      simp [fetchWithRetry, h]
  | succ r ih =>
    rcases h : tryBody (dep (MAX_RETRIES - (r + 1) + 1)) with s | e <;>
      simp [fetchWithRetry, h]
    exact fun a b hab => ih (a, b) hab

/-- A 5xx status is neither ok nor a client error, so the try block of
fetchWithRetry throws the Error built from it. -/
theorem tryBody_5xx (s : Nat) (h1 : 500 ≤ s) :
    tryBody (.resp s) = .inr (.serverReturned s) := by
  have hok : statusOk s = false := by
    simp only [statusOk, Bool.and_eq_false_iff]
    right
    simp only [decide_eq_false_iff_not, not_lt]
    omega
  have hce : statusClientError s = false := by
    simp only [statusClientError, Bool.and_eq_false_iff]
    right
    simp only [decide_eq_false_iff_not, not_lt]
    omega
  simp [tryBody, hok, hce]

/-- A full run against a dependency that answers 5xx on every attempt:
four fetches are dispatched, three backoff sleeps are awaited, and the
last Error propagates. -/
theorem fetchWithRetry_always5xx (s : Nat) (h1 : 500 ≤ s)
    (jitter : Nat → Fin 50) (options : FetchOptions) :
    fetchWithRetry (fun _ => .resp s) jitter options 3
      = { outcome := .thrown (.serverReturned s)
          sent := [(1, options), (2, options), (3, options), (4, options)]
          delays := [100 + (jitter 1).val, 200 + (jitter 2).val,
                     400 + (jitter 3).val] } := by
  have htb := tryBody_5xx s h1
  simp [fetchWithRetry, htb, MAX_RETRIES]

/-- A 4xx status is returned by the try block of fetchWithRetry without
throwing. -/
theorem tryBody_4xx (s : Nat) (h4 : 400 ≤ s) (h5 : s < 500) :
    tryBody (.resp s) = .inl s := by
  have hok : statusOk s = false := by
    simp only [statusOk, Bool.and_eq_false_iff]
    right
    simp only [decide_eq_false_iff_not, not_lt]
    omega
  have hce : statusClientError s = true := by
    simp only [statusClientError, Bool.and_eq_true, decide_eq_true_eq]
    omega
  simp [tryBody, hok, hce]

/-! Claim theorems. -/

/-- C1 counterexample: with every attempt answered 500 and zero jitter,
fetchWithRetry dispatches 4 attempts, refuting the claimed count of
exactly maxAttempts = 3. -/
theorem always5xx_attempt_count_not_three :
    (fetchWithRetry (fun _ => .resp 500) (fun _ => 0) emptyOptions 3).sent.length
        = 4 ∧
    ¬ (fetchWithRetry (fun _ => .resp 500) (fun _ => 0) emptyOptions 3).sent.length
        = 3 := by
  decide

/-- C1 (amended): against a dependency that returns a 5xx status on every
attempt, fetchWithRetry (default retriesLeft = 3) dispatches exactly
MAX_RETRIES + 1 = 4 attempts, awaits a strictly increasing backoff sleep
between each pair of consecutive attempts, and the handler catches the
propagated server error and returns its normal body with the
dependency-error enrichment instead of raising. -/
theorem always5xx_four_attempts_increasing_backoff_degraded
    (req : ReceivedEcho) (host ver : String) (s : Nat)
    (jitter : Nat → Fin 50) (h5 : 500 ≤ s) :
    (fetchWithRetry (fun _ => .resp s) jitter emptyOptions 3).sent.length
        = MAX_RETRIES + 1 ∧
    (fetchWithRetry (fun _ => .resp s) jitter emptyOptions 3).delays
        = [100 + (jitter 1).val, 200 + (jitter 2).val, 400 + (jitter 3).val] ∧
    100 + (jitter 1).val < 200 + (jitter 2).val ∧
    200 + (jitter 2).val < 400 + (jitter 3).val ∧
    handleRequestRetries req host ver (fun _ => .resp s) jitter
      = { message := "Hello from log-service", received := req,
          enrichment := .errMessage (.serverReturned s),
          hostname := host, version := ver } := by
  have hrun := fetchWithRetry_always5xx s h5 jitter emptyOptions
  have hj1 := (jitter 1).isLt
  have hj2 := (jitter 2).isLt
  refine ⟨?_, ?_, ?_, ?_, ?_⟩
  · rw [hrun]
    rfl
  · rw [hrun]
  · omega
  · omega
  · simp [handleRequestRetries, hrun]

/-- C1 witness: the amended theorem applied to the concrete always-500
dependency with zero jitter. -/
theorem always5xx_four_attempts_witness :
    handleRequestRetries ⟨"GET", "/"⟩ "host-a" "v1" (fun _ => .resp 500)
        (fun _ => 0)
      = { message := "Hello from log-service", received := ⟨"GET", "/"⟩,
          enrichment := .errMessage (.serverReturned 500),
          hostname := "host-a", version := "v1" } :=
  (always5xx_four_attempts_increasing_backoff_degraded ⟨"GET", "/"⟩ "host-a"
    "v1" 500 (fun _ => 0) (by decide)).2.2.2.2

/-- C2 counterexample: with every attempt answered 503, the number of
dispatched attempts is 4, exceeding the claimed bound maxAttempts = 3. -/
theorem attempts_can_exceed_three :
    (fetchWithRetry (fun _ => .resp 503) (fun _ => 7) emptyOptions 3).sent.length
        = 4 ∧
    ¬ (fetchWithRetry (fun _ => .resp 503) (fun _ => 7) emptyOptions 3).sent.length
        ≤ 3 := by
  decide

/-- C2 (amended): fetchWithRetry is a total function — every call
terminates — and for every dependency behaviour, jitter draw, options and
retry budget it dispatches at most retriesLeft + 1 attempts; with the
default retriesLeft = 3 that bound is 4 attempts, not 3. -/
theorem retry_loop_terminates_bounded (dep : Nat → DepOutcome)
    (jitter : Nat → Fin 50) (options : FetchOptions) (rl : Nat) :
    (fetchWithRetry dep jitter options rl).sent.length ≤ rl + 1 ∧
    (fetchWithRetry dep jitter options 3).sent.length ≤ MAX_RETRIES + 1 :=
  ⟨fetchWithRetry_sent_length_le dep jitter options rl,
    fetchWithRetry_sent_length_le dep jitter options 3⟩

/-- C5 (confirmed): a 4xx response on the first attempt ends the call at
once — exactly one fetch is dispatched, no sleep is awaited, and the 4xx
response itself is returned rather than retried. -/
theorem clientError_not_retried (dep : Nat → DepOutcome)
    (jitter : Nat → Fin 50) (options : FetchOptions) (s : Nat)
    (hdep : dep 1 = .resp s) (h4 : 400 ≤ s) (h5 : s < 500) :
    fetchWithRetry dep jitter options 3
      = { outcome := .response s, sent := [(1, options)], delays := [] } := by
  have htb : tryBody (dep 1) = .inl s := by rw [hdep]; exact tryBody_4xx s h4 h5
  simp [fetchWithRetry, MAX_RETRIES, htb]

/-- C5 witness: the theorem applied to a dependency answering 404 on the
first attempt. -/
theorem clientError_not_retried_witness :
    fetchWithRetry (fun _ => .resp 404) (fun _ => 0) emptyOptions 3
      = { outcome := .response 404, sent := [(1, emptyOptions)], delays := [] } :=
  clientError_not_retried (fun _ => .resp 404) (fun _ => 0) emptyOptions 404
    rfl (by decide) (by decide)

/-- C6 (confirmed): whenever the first and second attempts end in the
catch block, the first awaited delay is 100 * 2 ^ 0 plus the first jitter
draw — in the interval [100, 150) — and the second is 100 * 2 ^ 1 plus the
second draw — in [200, 250) — matching base 100 ms, doubling per attempt
and jitter drawn from [0, 50). -/
theorem backoff_delays_formula (dep : Nat → DepOutcome)
    (jitter : Nat → Fin 50) (options : FetchOptions)
    (hd1 : throwsOutcome (dep 1) = true)
    (hd2 : throwsOutcome (dep 2) = true) :
    ∃ rest, (fetchWithRetry dep jitter options 3).delays
        = (100 * 2 ^ (1 - 1) + (jitter 1).val)
          :: (100 * 2 ^ (2 - 1) + (jitter 2).val) :: rest ∧
      100 ≤ 100 * 2 ^ (1 - 1) + (jitter 1).val ∧
      100 * 2 ^ (1 - 1) + (jitter 1).val < 150 ∧
      200 ≤ 100 * 2 ^ (2 - 1) + (jitter 2).val ∧
      100 * 2 ^ (2 - 1) + (jitter 2).val < 250 := by
  rcases h1 : tryBody (dep 1) with s1 | e1
  · rw [throwsOutcome, h1] at hd1
    simp at hd1
  rcases h2 : tryBody (dep 2) with s2 | e2
  · rw [throwsOutcome, h2] at hd2
    simp at hd2
  have hj1 := (jitter 1).isLt
  have hj2 := (jitter 2).isLt
  refine ⟨(fetchWithRetry dep jitter options 1).delays, ?_, ?_, ?_, ?_, ?_⟩
  · simp [fetchWithRetry, MAX_RETRIES, h1, h2]
  all_goals norm_num
  all_goals omega

/-- C6 witness: the theorem applied to the concrete always-500 dependency
with zero jitter. -/
theorem backoff_delays_formula_witness :
    ∃ rest, (fetchWithRetry (fun _ => .resp 500) (fun _ => 0) emptyOptions 3).delays
        = (100 * 2 ^ (1 - 1) + (0 : Fin 50).val)
          :: (100 * 2 ^ (2 - 1) + (0 : Fin 50).val) :: rest ∧
      100 ≤ 100 * 2 ^ (1 - 1) + (0 : Fin 50).val ∧
      100 * 2 ^ (1 - 1) + (0 : Fin 50).val < 150 ∧
      200 ≤ 100 * 2 ^ (2 - 1) + (0 : Fin 50).val ∧
      100 * 2 ^ (2 - 1) + (0 : Fin 50).val < 250 :=
  backoff_delays_formula (fun _ => .resp 500) (fun _ => 0) emptyOptions
    (by decide) (by decide)

/-- C3 (confirmed): whatever the dependency does, both handlers always
reach res.json with the fixed primary fields — a thrown error is caught
and becomes the error-message enrichment of a normal response, never an
exception escaping to the original caller. -/
theorem dependency_failures_never_escape (req : ReceivedEcho)
    (host ver : String) (inbound : Option String) (fresh : String)
    (dep : Nat → DepOutcome) (jitter : Nat → Fin 50) :
    (∀ e, (fetchWithRetry dep jitter emptyOptions 3).outcome = .thrown e →
      handleRequestRetries req host ver dep jitter
        = { message := "Hello from log-service", received := req,
            enrichment := .errMessage e, hostname := host, version := ver }) ∧
    (∃ enr, handleRequestRetries req host ver dep jitter
        = { message := "Hello from log-service", received := req,
            enrichment := enr, hostname := host, version := ver }) ∧
    (∃ enr, (handleRequestCombined req inbound fresh host ver dep jitter).1
        = { message := "Hello from log-service", received := req,
            enrichment := enr, hostname := host, version := ver }) := by
  refine ⟨?_, ⟨_, rfl⟩, ⟨_, rfl⟩⟩
  intro e he
  simp only [handleRequestRetries, he]

/-- C3 witness: the never-escape theorem applied to a dependency whose
fetch always rejects with a transport error. -/
theorem dependency_failures_never_escape_witness :
    handleRequestRetries ⟨"GET", "/"⟩ "host-b" "v1" (fun _ => .err false)
        (fun _ => 0)
      = { message := "Hello from log-service", received := ⟨"GET", "/"⟩,
          enrichment := .errMessage (.fetchFailure false),
          hostname := "host-b", version := "v1" } :=
  (dependency_failures_never_escape ⟨"GET", "/"⟩ "host-b" "v1" none "u"
      (fun _ => .err false) (fun _ => 0)).1 (.fetchFailure false) (by decide)

/-- C4 (confirmed): the primary payload — message, request echo and
environment — is always populated and is identical across dependency
behaviours; only the enrichment field depends on the dependency, in the
retry handler as well as in the timeout handler. -/
theorem primary_payload_independent (req : ReceivedEcho) (host ver : String)
    (dep1 dep2 : Nat → DepOutcome) (jitter1 jitter2 : Nat → Fin 50)
    (tdep1 tdep2 : TimedDep) :
    (handleRequestRetries req host ver dep1 jitter1).message
        = "Hello from log-service" ∧
    (handleRequestRetries req host ver dep1 jitter1).received = req ∧
    (handleRequestRetries req host ver dep1 jitter1).hostname = host ∧
    (handleRequestRetries req host ver dep1 jitter1).version = ver ∧
    ((handleRequestRetries req host ver dep1 jitter1).message,
      (handleRequestRetries req host ver dep1 jitter1).received,
      (handleRequestRetries req host ver dep1 jitter1).hostname,
      (handleRequestRetries req host ver dep1 jitter1).version)
      = ((handleRequestRetries req host ver dep2 jitter2).message,
          (handleRequestRetries req host ver dep2 jitter2).received,
          (handleRequestRetries req host ver dep2 jitter2).hostname,
          (handleRequestRetries req host ver dep2 jitter2).version) ∧
    (handleRequestTimeout req host ver tdep1).message
        = "Hello from log-service" ∧
    (handleRequestTimeout req host ver tdep1).received = req ∧
    (handleRequestTimeout req host ver tdep1).hostname = host ∧
    (handleRequestTimeout req host ver tdep1).version = ver ∧
    ((handleRequestTimeout req host ver tdep1).message,
      (handleRequestTimeout req host ver tdep1).received,
      (handleRequestTimeout req host ver tdep1).hostname,
      (handleRequestTimeout req host ver tdep1).version)
      = ((handleRequestTimeout req host ver tdep2).message,
          (handleRequestTimeout req host ver tdep2).received,
          (handleRequestTimeout req host ver tdep2).hostname,
          (handleRequestTimeout req host ver tdep2).version) :=
  ⟨rfl, rfl, rfl, rfl, rfl, rfl, rfl, rfl, rfl, rfl⟩

/-- C7 (confirmed): once the 1000 ms timer has fired, the guarded fetch of
the timeout variant surfaces an AbortError — a response whose latency
reaches the bound is discarded, never classified a success — and the
handler returns the normal body with the upstream-dependency-timeout
enrichment; a hanging dependency is handled identically. -/
theorem timeout_authoritative (req : ReceivedEcho) (host ver : String)
    (lat s : Nat) (h : TIMEOUT_MS ≤ lat) :
    fetchWithSignal TIMEOUT_MS (.responds lat s) = .abortError ∧
    (∀ s2, ¬ fetchWithSignal TIMEOUT_MS (.responds lat s) = .resp s2) ∧
    handleRequestTimeout req host ver (.responds lat s)
      = { message := "Hello from log-service", received := req,
          enrichment := .timeoutDegraded, hostname := host, version := ver } ∧
    handleRequestTimeout req host ver .hangs
      = { message := "Hello from log-service", received := req,
          enrichment := .timeoutDegraded, hostname := host, version := ver } := by
  have hlt : ¬ lat < TIMEOUT_MS := by omega
  have habort : fetchWithSignal TIMEOUT_MS (.responds lat s) = .abortError := by
    simp [fetchWithSignal, hlt]
  refine ⟨habort, ?_, ?_, ?_⟩
  · intro s2
    rw [habort]
    simp
  · simp [handleRequestTimeout, habort]
  · simp [handleRequestTimeout, fetchWithSignal]

/-- C7 witness: the theorem applied to a dependency answering 200 only
after 5000 ms against the 1000 ms bound. -/
theorem timeout_authoritative_witness :
    handleRequestTimeout ⟨"GET", "/"⟩ "host-c" "v1" (.responds 5000 200)
      = { message := "Hello from log-service", received := ⟨"GET", "/"⟩,
          enrichment := .timeoutDegraded, hostname := "host-c",
          version := "v1" } :=
  (timeout_authoritative ⟨"GET", "/"⟩ "host-c" "v1" 5000 200 (by decide)).2.2.1

/-- C8 (confirmed): a present non-empty x-request-id header is reused
verbatim, an absent or empty one is replaced by the freshly generated
identifier, and every fetch dispatched by the combined handler carries
exactly that identifier in its X-Request-ID header. -/
theorem correlation_id_reuse_and_propagation (req : ReceivedEcho)
    (host ver fresh : String) (dep : Nat → DepOutcome)
    (jitter : Nat → Fin 50) :
    (∀ s, ¬ s = "" → obtainTraceId (some s) fresh = s) ∧
    obtainTraceId none fresh = fresh ∧
    obtainTraceId (some "") fresh = fresh ∧
    (∀ inbound, ∀ p ∈
        (handleRequestCombined req inbound fresh host ver dep jitter).2.sent,
      p.2.xRequestId = some (obtainTraceId inbound fresh)) := by
  refine ⟨?_, rfl, by simp [obtainTraceId], ?_⟩
  · intro s hs
    simp [obtainTraceId, hs]
  · intro inbound p hp
    have h2 := fetchWithRetry_sent_options dep jitter
      { xRequestId := some (obtainTraceId inbound fresh), hasSignal := true }
      3 p hp
    rw [h2]

/-- C8 witness: the theorem applied to a concrete inbound header and a
concrete dispatched attempt of the combined handler. -/
theorem correlation_id_witness :
    obtainTraceId (some "req-42") "uuid-1" = "req-42" ∧
    obtainTraceId none "uuid-1" = "uuid-1" ∧
    ((1, ({ xRequestId := some (obtainTraceId (some "req-42") "uuid-1"),
            hasSignal := true } : FetchOptions)) : Nat × FetchOptions).2.xRequestId
      = some (obtainTraceId (some "req-42") "uuid-1") := by
  have h := correlation_id_reuse_and_propagation ⟨"GET", "/"⟩ "h" "v" "uuid-1"
    (fun _ => .resp 200) (fun _ => 0)
  exact ⟨h.1 "req-42" (by decide), h.2.1,
    h.2.2.2 (some "req-42")
      (1, { xRequestId := some (obtainTraceId (some "req-42") "uuid-1"),
            hasSignal := true }) (by decide)⟩

/-- C9 counterexample: in the part_003 variant, with the first attempt
taking 600 ms and zero jitter, the second attempt starts 700 ms into the
call and gets only 300 ms before the shared signal fires — not the full
1000 ms window the first attempt had, so the deadline is not independent
of prior attempts. -/
theorem shared_deadline_not_per_attempt :
    combinedAttemptStart (fun _ => 600) (fun _ => 0) 2 = 700 ∧
    combinedAttemptWindow 0 (combinedAttemptStart (fun _ => 600) (fun _ => 0) 2)
        = 300 ∧
    combinedAttemptWindow 0 (combinedAttemptStart (fun _ => 600) (fun _ => 0) 1)
        = 1000 ∧
    ¬ combinedAttemptWindow 0 (combinedAttemptStart (fun _ => 600) (fun _ => 0) 2)
        = 1000 := by
  decide

/-- C9 (amended): only the hardened variant gives every attempt its own
full window — 5000 ms whenever the attempt starts; in the combined
part_003 variant attempts start strictly later and later, and as long as
the shared 1000 ms deadline has not yet passed, each later attempt has a
strictly smaller window than its predecessor. -/
theorem per_attempt_deadline_variants (s : Nat) (durations : Nat → Nat)
    (jitter : Nat → Fin 50) (n : Nat) (hn : 1 ≤ n) :
    hardenedAttemptWindow s = 5000 ∧
    combinedAttemptStart durations jitter n
      < combinedAttemptStart durations jitter (n + 1) ∧
    (combinedAttemptStart durations jitter (n + 1) ≤ 1000 →
      combinedAttemptWindow 0 (combinedAttemptStart durations jitter (n + 1))
        < combinedAttemptWindow 0 (combinedAttemptStart durations jitter n)) := by
  have hwin : hardenedAttemptWindow s = 5000 := by
    simp [hardenedAttemptWindow, hardenedSignalFireTime]
  obtain ⟨m, rfl⟩ : ∃ m, n = m + 1 := ⟨n - 1, by omega⟩
  have hpow : 0 < 2 ^ (m + 1 - 1) := pow_pos (by omega) _
  have hstep : combinedAttemptStart durations jitter (m + 1 + 1)
      = combinedAttemptStart durations jitter (m + 1) + durations (m + 1)
        + (100 * 2 ^ (m + 1 - 1) + (jitter (m + 1)).val) := rfl
  refine ⟨hwin, ?_, ?_⟩
  · omega
  · intro hle
    simp only [combinedAttemptWindow, combinedSignalFireTime]
    omega

/-- C9 witness: the amended theorem applied to the concrete schedule of
the counterexample. -/
theorem per_attempt_deadline_witness :
    hardenedAttemptWindow 0 = 5000 ∧
    combinedAttemptStart (fun _ => 600) (fun _ => 0) 1
      < combinedAttemptStart (fun _ => 600) (fun _ => 0) 2 ∧
    combinedAttemptWindow 0 (combinedAttemptStart (fun _ => 600) (fun _ => 0) 2)
      < combinedAttemptWindow 0 (combinedAttemptStart (fun _ => 600) (fun _ => 0) 1) := by
  have h := per_attempt_deadline_variants 0 (fun _ => 600) (fun _ => 0) 1
    (by decide)
  exact ⟨h.1, h.2.1, h.2.2 (by decide)⟩

/-- C10 (confirmed): in the combined part_003 variant an aborted attempt
is caught like any other failure, so with the shared signal fired from the
first attempt on, fetchWithRetry still dispatches all 4 attempts, awaits
the full backoff sleep before each of the 3 retries, propagates the
AbortError only after the budget is exhausted, and the handler then
returns the normal body with the timeout enrichment. -/
theorem fired_signal_retried_until_exhaustion (req : ReceivedEcho)
    (host ver : String) (inbound : Option String) (fresh : String)
    (dep : Nat → DepOutcome) (jitter : Nat → Fin 50) :
    (handleRequestCombined req inbound fresh host ver
        (depUnderFiredSignal dep 1) jitter).2.sent.length = 4 ∧
    (handleRequestCombined req inbound fresh host ver
        (depUnderFiredSignal dep 1) jitter).2.delays
      = [100 + (jitter 1).val, 200 + (jitter 2).val, 400 + (jitter 3).val] ∧
    (handleRequestCombined req inbound fresh host ver
        (depUnderFiredSignal dep 1) jitter).2.outcome
      = .thrown (.fetchFailure true) ∧
    (handleRequestCombined req inbound fresh host ver
        (depUnderFiredSignal dep 1) jitter).1.enrichment
      = .timeoutDegraded ∧
    (handleRequestCombined req inbound fresh host ver
        (depUnderFiredSignal dep 1) jitter).1.message
      = "Hello from log-service" := by
  refine ⟨?_, ?_, ?_, ?_, ?_⟩ <;>
    simp [handleRequestCombined, fetchWithRetry, MAX_RETRIES,
      depUnderFiredSignal, tryBody]

end CloudNative
